import Mathlib

/-!
# Verification of the `wired-datepicker-grid` focus/selection state machine

Shallow embedding of `src/packages/wired-datepicker/src/wired-datepicker-grid.ts`
(class `WiredDatePickerGrid`).

Modelling choices, traced to the source:

* All numeric fields are JS `number`s holding integers in this component; they
  are embedded as `Int` (except `dayCount`, which feeds `Array(dayCount)` and
  is embedded as `Nat`, matching the spec's `dayCount ≥ 0` invariant).
* The property setters (`selectedDayIndex`, `minEnabledIndex`,
  `maxEnabledIndex`) are pure state transformers, translated line by line.
* `handleKeyboardNavigation` reads
  `this.shadowRoot?.querySelectorAll('wired-datepicker-cell')`.  That value is
  `undefined` exactly when `shadowRoot` is `null` (modelled as `none`);
  otherwise it is a NodeList, which is *truthy even when empty*, so the
  `if (!cells) return;` guard only fires in the `none` case.  The NodeList is
  abstracted by its length (`some cellCount`), since the handler uses only
  `cells.length` and indexed access.
* Indexed access `cells[i]` on a NodeList yields `undefined` when
  `i < 0 ∨ i ≥ cellCount`; calling `.blur()` / `.focus()` on `undefined`
  throws a `TypeError`.  The embedding records this in a `threw` flag and,
  crucially, keeps exactly the state mutations that happened *before* the
  throwing access (`this._focusIndex = newFocusIndex` is executed after the
  `blur()` call and before the `focus()` call).
* Observable outputs (DOM blur/focus of a cell, the outward `cell-selected`
  event fired by `onCellSelected` via `fire(this, 'cell-selected',
  { day: cellIndex+1 })`) are collected as an `Effect` list.
* `render` builds the cell array with `[...Array(dayCount).keys()].map(...)`
  and then, when `selectedDayIndex >= 0`, performs the JS array assignment
  `cells[selectedDayIndex] = Cell(selectedDayIndex, true, !enabled)`; a JS
  assignment beyond the current length extends the array with holes, which the
  embedding `jsArraySet` reproduces on `List (Option CellTemplate)`.
  A cell template carries the data the `Cell` template closes over: its
  index, the `selected`/`disabled` flags, and whether a `handleSelect`
  callback was supplied (the `@click` handler runs
  `handleSelect && handleSelect(index)`, and the only callback ever passed is
  `onCellSelected.bind(this)`).
* `gridOffset` only influences the auxiliary CSS fragment; it is carried in
  the state for completeness but plays no role in the state machine.
-/

/-- The reactive fields of `WiredDatePickerGrid`, including the private
backing fields `_selectedDayIndex`, `_minEnabledIndex`, `_maxEnabledIndex`,
`_focusIndex`. -/
structure GridState where
  selectedDayIndex : Int
  minEnabledIndex : Int
  maxEnabledIndex : Int
  dayCount : Nat
  gridOffset : Int
  focusIndex : Int
  deriving DecidableEq, Repr

/-- Field initializers of the class:
`_focusIndex = 0`, `_selectedDayIndex = -1`, `_minEnabledIndex = 0`,
`_maxEnabledIndex = 32`, `dayCount = 0`, `gridOffset = 0`. -/
def gridInit : GridState :=
  { selectedDayIndex := -1
    minEnabledIndex := 0
    maxEnabledIndex := 32
    dayCount := 0
    gridOffset := 0
    focusIndex := 0 }

/-- `set selectedDayIndex(value)`:
stores the value, sets `_focusIndex = value`, then
`if (this._focusIndex < this.minEnabledIndex || this._focusIndex > this.maxEnabledIndex)
 this._focusIndex = this.minEnabledIndex`. -/
def setSelectedDayIndex (s : GridState) (value : Int) : GridState :=
  let s1 := { s with selectedDayIndex := value, focusIndex := value }
  if s1.focusIndex < s1.minEnabledIndex ∨ s1.focusIndex > s1.maxEnabledIndex then
    { s1 with focusIndex := s1.minEnabledIndex }
  else
    s1

/-- `set minEnabledIndex(value)`:
`this._minEnabledIndex = value;
 this._focusIndex = Math.max(this._minEnabledIndex, this._focusIndex)`. -/
def setMinEnabledIndex (s : GridState) (value : Int) : GridState :=
  { s with minEnabledIndex := value, focusIndex := max value s.focusIndex }

/-- `set maxEnabledIndex(value)`:
`this._maxEnabledIndex = value;
 if (this._focusIndex >= this._maxEnabledIndex) this._focusIndex = this._minEnabledIndex`. -/
def setMaxEnabledIndex (s : GridState) (value : Int) : GridState :=
  let s1 := { s with maxEnabledIndex := value }
  if s1.focusIndex ≥ s1.maxEnabledIndex then
    { s1 with focusIndex := s1.minEnabledIndex }
  else
    s1

/-- Write to the plain reactive property `dayCount` (no custom setter). -/
def setDayCount (s : GridState) (n : Nat) : GridState :=
  { s with dayCount := n }

/-- Write to the plain reactive property `gridOffset` (no custom setter). -/
def setGridOffset (s : GridState) (v : Int) : GridState :=
  { s with gridOffset := v }

/-- The keys handled by the `switch (e.keyCode)` in
`handleKeyboardNavigation` (`endKey` is `VK_END`, `other` is the `default`
branch). -/
inductive Key where
  | left
  | right
  | up
  | down
  | home
  | endKey
  | space
  | enter
  | other
  deriving DecidableEq, Repr

/-- Externally observable DOM/event actions of the handler:
`cells[i].blur()`, `cells[i].focus()`, and
`fire(this, 'cell-selected', { day })`. -/
inductive Effect where
  | blurCell (i : Int)
  | focusCell (i : Int)
  | fired (day : Int)
  deriving DecidableEq, Repr

/-- `jumpForward(step, gridLength)`:
`if (this._focusIndex+step < Math.min(gridLength, this.maxEnabledIndex))
   return this._focusIndex+step;
 return this._focusIndex`. -/
def jumpForward (s : GridState) (step gridLength : Int) : Int :=
  if s.focusIndex + step < min gridLength s.maxEnabledIndex then
    s.focusIndex + step
  else
    s.focusIndex

/-- `jumpBackward(step)`:
`if (this._focusIndex-step >= Math.max(0, this.minEnabledIndex))
   return this._focusIndex-step;
 return this._focusIndex`. -/
def jumpBackward (s : GridState) (step : Int) : Int :=
  if s.focusIndex - step ≥ max 0 s.minEnabledIndex then
    s.focusIndex - step
  else
    s.focusIndex

/-- The `newFocusIndex` computed by the `switch` of
`handleKeyboardNavigation` (initialized to `this._focusIndex`, reassigned in
the arrow/Home/End cases). -/
def newFocusIndex (s : GridState) (cellCount : Nat) (k : Key) : Int :=
  match k with
  | Key.left => jumpBackward s 1
  | Key.right => jumpForward s 1 (cellCount : Int)
  | Key.down => jumpForward s 7 (cellCount : Int)
  | Key.up => jumpBackward s 7
  | Key.endKey => min (cellCount : Int) s.maxEnabledIndex - 1
  | Key.home => max 0 s.minEnabledIndex
  | _ => s.focusIndex

/-- Result of one `keydown` dispatch: the state after the handler returns (or
after the exception propagates), the observable effects that actually
happened, and whether a `TypeError` was thrown by calling `.blur()`/`.focus()`
on a missing cell. -/
structure KeyResult where
  state : GridState
  effects : List Effect
  threw : Bool
  deriving DecidableEq, Repr

/-- `handleKeyboardNavigation(e)`.  `cells` is
`this.shadowRoot?.querySelectorAll('wired-datepicker-cell')`, abstracted to
its length; `none` models a missing shadow root (the only falsy case of
`!cells`, since an empty NodeList is truthy).  After the `switch`:
`if (newFocusIndex !== this._focusIndex) {
   cells[this._focusIndex].blur();
   this._focusIndex = newFocusIndex;
   cells[this._focusIndex].focus(); }`
where an out-of-range index gives `undefined` and the method call throws,
aborting the rest of the handler. -/
def handleKeyboardNavigation (s : GridState) (cells : Option Nat) (k : Key) : KeyResult :=
  match cells with
  | none => { state := s, effects := [], threw := false }
  | some cellCount =>
    let firedEffects : List Effect :=
      if k = Key.space ∨ k = Key.enter then [Effect.fired (s.focusIndex + 1)] else []
    let nf : Int := newFocusIndex s cellCount k
    if nf ≠ s.focusIndex then
      if s.focusIndex < 0 ∨ (cellCount : Int) ≤ s.focusIndex then
        -- cells[this._focusIndex] is undefined: .blur() throws,
        -- _focusIndex is never reassigned
        { state := s, effects := firedEffects, threw := true }
      else if nf < 0 ∨ (cellCount : Int) ≤ nf then
        -- blur succeeded and _focusIndex was reassigned,
        -- then cells[newFocusIndex].focus() threw
        { state := { s with focusIndex := nf }
          effects := firedEffects ++ [Effect.blurCell s.focusIndex]
          threw := true }
      else
        { state := { s with focusIndex := nf }
          effects := firedEffects ++ [Effect.blurCell s.focusIndex, Effect.focusCell nf]
          threw := false }
    else
      { state := s, effects := firedEffects, threw := false }

/-- `forwardFocusToCell()`:
`if (cells && this._focusIndex < this.maxEnabledIndex)
   cells[this._focusIndex].focus();`
Returns the effects performed and whether the access threw. -/
def forwardFocusToCell (s : GridState) (cells : Option Nat) : List Effect × Bool :=
  match cells with
  | none => ([], false)
  | some cellCount =>
    if s.focusIndex < s.maxEnabledIndex then
      if 0 ≤ s.focusIndex ∧ s.focusIndex < (cellCount : Int) then
        ([Effect.focusCell s.focusIndex], false)
      else
        ([], true)
    else
      ([], false)

/-- The local `isCellEnabled` closure of `render`:
`(i) => i < this.maxEnabledIndex && i >= this.minEnabledIndex`. -/
def isCellEnabled (s : GridState) (i : Int) : Bool :=
  i < s.maxEnabledIndex && s.minEnabledIndex ≤ i

/-- The data a rendered `Cell(index, selected, disabled, handleSelect?)`
template closes over; `hasHandleSelect` records whether the optional
`handleSelect` callback was supplied. -/
structure CellTemplate where
  index : Int
  selected : Bool
  disabled : Bool
  hasHandleSelect : Bool
  deriving DecidableEq, Repr

/-- The `@click` handler of a cell: `() => handleSelect && handleSelect(index)`.
The only callback ever supplied is `onCellSelected.bind(this)`, which fires
`cell-selected` with `day = index + 1`. -/
def clickCell (c : CellTemplate) : List Effect :=
  if c.hasHandleSelect then [Effect.fired (c.index + 1)] else []

/-- The cell array built by
`[...Array(this.dayCount).keys()].map(i => { ... Cell(i, false, !enabled, onSelectCell) })`,
where `onSelectCell` is the bound `onCellSelected` when the cell is enabled
and `undefined` otherwise.  Entries are `Option`s so that later JS array
holes can be represented. -/
def baseCells (s : GridState) : List (Option CellTemplate) :=
  (List.range s.dayCount).map fun i =>
    some { index := (i : Int)
           selected := false
           disabled := !isCellEnabled s (i : Int)
           hasHandleSelect := isCellEnabled s (i : Int) }

/-- JS array index assignment `arr[i] = v`: in-place update when `i` is within
bounds, otherwise the array is extended with holes (`none`) up to `i`. -/
def jsArraySet {α : Type} : List (Option α) → Nat → α → List (Option α)
  | [], i, v => List.replicate i none ++ [some v]
  | _ :: t, 0, v => some v :: t
  | h :: t, i + 1, v => h :: jsArraySet t i v

/-- The overriding template of `render`, line
`cells[this.selectedDayIndex] = Cell(this.selectedDayIndex, true, !enabled)`:
selected, disabled from the bounds, and *no* `handleSelect` callback. -/
def selectedCellTemplate (s : GridState) : CellTemplate :=
  { index := s.selectedDayIndex
    selected := true
    disabled := !isCellEnabled s s.selectedDayIndex
    hasHandleSelect := false }

/-- `render()`: the base cells, then
`if (this.selectedDayIndex >= 0)
   cells[this.selectedDayIndex] = Cell(this.selectedDayIndex, true, !enabled)`. -/
def renderCells (s : GridState) : List (Option CellTemplate) :=
  if 0 ≤ s.selectedDayIndex then
    jsArraySet (baseCells s) s.selectedDayIndex.toNat (selectedCellTemplate s)
  else
    baseCells s

/-- Number of `wired-datepicker-cell` elements present after a render of `s`:
the `dayCount` mapped cells, plus the selected cell when the array assignment
extended the array past `dayCount` (holes spread as `undefined` and render no
element). -/
def renderedCellCount (s : GridState) : Nat :=
  if 0 ≤ s.selectedDayIndex ∧ (s.dayCount : Int) ≤ s.selectedDayIndex then
    s.dayCount + 1
  else
    s.dayCount

/-- States reachable from construction through the component's observable
interface: the three clamping property setters, the plain `dayCount` /
`gridOffset` properties, and `keydown` dispatches against the rendered cell
collection (keeping whatever mutations survived a thrown `TypeError`). -/
inductive Reachable : GridState → Prop where
  | init : Reachable gridInit
  | selSet {s : GridState} (v : Int) : Reachable s → Reachable (setSelectedDayIndex s v)
  | minSet {s : GridState} (v : Int) : Reachable s → Reachable (setMinEnabledIndex s v)
  | maxSet {s : GridState} (v : Int) : Reachable s → Reachable (setMaxEnabledIndex s v)
  | daySet {s : GridState} (n : Nat) : Reachable s → Reachable (setDayCount s n)
  | offsetSet {s : GridState} (v : Int) : Reachable s → Reachable (setGridOffset s v)
  | key {s : GridState} (k : Key) :
      Reachable s →
      Reachable (handleKeyboardNavigation s (some (renderedCellCount s)) k).state

/-- A reachable state with an empty enabled range (`max = min = 10`) in which
the focus cursor sits at `20`, strictly above the bounds: reached by
`dayCount := 31; minEnabledIndex := 20; maxEnabledIndex := 10;
minEnabledIndex := 10`. -/
def emptyRangeMovableState : GridState :=
  setMinEnabledIndex
    (setMaxEnabledIndex (setMinEnabledIndex (setDayCount gridInit 31) 20) 10) 10

/-- A concrete empty-range state (`min = max = 3`, focus `3`) satisfying the
amended no-movement hypotheses. -/
def emptyRangeParkedState : GridState :=
  { selectedDayIndex := -1
    minEnabledIndex := 3
    maxEnabledIndex := 3
    dayCount := 0
    gridOffset := 0
    focusIndex := 3 }

/-- A reachable state (`dayCount = 5`, then `minEnabledIndex := 20`) whose
focus cursor `20` lies beyond the 5 rendered cells while still below
`maxEnabledIndex = 32`. -/
def focusBeyondCellsState : GridState :=
  setMinEnabledIndex (setDayCount gridInit 5) 20

/-- A reachable state with 5 rendered cells and focus `20` but
`minEnabledIndex` back at `0`: `dayCount := 5; minEnabledIndex := 20;
minEnabledIndex := 0` (the second write keeps `focusIndex = max(0, 20) = 20`). -/
def homeStrandedState : GridState :=
  setMinEnabledIndex (setMinEnabledIndex (setDayCount gridInit 5) 20) 0

/-- A rendered state with a selected day: `dayCount := 5`, then
`selectedDayIndex := 2`. -/
def selectedRenderState : GridState :=
  setSelectedDayIndex (setDayCount gridInit 5) 2

/-! ## Helper lemmas -/

/-- `get?` of a hole-padded singleton at the padding length. -/
theorem replicate_none_append_get {α : Type} (v : α) :
    ∀ i : Nat, (List.replicate i (none : Option α) ++ [some v]).get? i = some (some v)
  | 0 => rfl
  | i + 1 => replicate_none_append_get v i

/-- JS array assignment stores the value at the written index, whether it
updates in place or extends the array with holes. -/
theorem jsArraySet_get {α : Type} :
    ∀ (l : List (Option α)) (i : Nat) (v : α), (jsArraySet l i v).get? i = some (some v)
  | [], i, v => replicate_none_append_get v i
  | _ :: _, 0, _ => rfl
  | _ :: t, i + 1, v => jsArraySet_get t i v

/-! ## Claims -/

/-- Claim C1, counterexample: from the initial state (`min = 0`, `max = 32`),
setting `selectedDayIndex = 32` keeps `focusIndex = 32`, although the claim
predicts a reset to `minEnabledIndex = 0` because `32` lies outside the
half-open interval `[0, 32)`. -/
theorem selectedDayIndex_halfOpen_counterexample :
    (setSelectedDayIndex gridInit 32).focusIndex ≠
      (if gridInit.minEnabledIndex ≤ 32 ∧ 32 < gridInit.maxEnabledIndex then (32 : Int)
       else gridInit.minEnabledIndex) := by
  decide

/-- Claim C1, amended: after `selectedDayIndex = v`, the stored
`selectedDayIndex` equals `v` and `focusIndex` equals `v`, unless `v` lies
outside the *closed* interval `[minEnabledIndex, maxEnabledIndex]`
(`v < min` or `v > max`), in which case `focusIndex` equals
`minEnabledIndex`; the bounds themselves are untouched. -/
theorem selectedDayIndex_setter_spec (s : GridState) (v : Int) :
    (setSelectedDayIndex s v).selectedDayIndex = v ∧
    (setSelectedDayIndex s v).focusIndex =
      (if v < s.minEnabledIndex ∨ v > s.maxEnabledIndex then s.minEnabledIndex else v) ∧
    (setSelectedDayIndex s v).minEnabledIndex = s.minEnabledIndex ∧
    (setSelectedDayIndex s v).maxEnabledIndex = s.maxEnabledIndex := by
  simp only [setSelectedDayIndex]
  by_cases h : v < s.minEnabledIndex ∨ v > s.maxEnabledIndex
  · rw [if_pos h, if_pos h]
    exact ⟨rfl, rfl, rfl, rfl⟩
  · rw [if_neg h, if_neg h]
    exact ⟨rfl, rfl, rfl, rfl⟩

/-- Claim C4: there is a reachable state with `minEnabledIndex = 3` and
`focusIndex = 3` from which a single `maxEnabledIndex = 3` write leaves
`focusIndex = 3`, outside the now-empty enabled range `[3, 3)`. -/
theorem bounds_setter_leaves_focus_outside_range :
    ∃ s : GridState, Reachable s ∧
      s.minEnabledIndex = 3 ∧ s.focusIndex = 3 ∧
      (setMaxEnabledIndex s 3).focusIndex = 3 ∧
      ¬ ((setMaxEnabledIndex s 3).minEnabledIndex ≤ (setMaxEnabledIndex s 3).focusIndex ∧
         (setMaxEnabledIndex s 3).focusIndex < (setMaxEnabledIndex s 3).maxEnabledIndex) :=
  ⟨setMinEnabledIndex gridInit 3, Reachable.minSet 3 Reachable.init,
    by decide, by decide, by decide, by decide⟩

/-- Claim C6: for every `step`, `focusIndex` and `minEnabledIndex`,
`jumpBackward(step)` returns `focusIndex - step` exactly when
`focusIndex - step ≥ max(0, minEnabledIndex)`, and otherwise returns
`focusIndex` unchanged. -/
theorem jumpBackward_spec (s : GridState) (step : Int) :
    jumpBackward s step =
      (if max 0 s.minEnabledIndex ≤ s.focusIndex - step then s.focusIndex - step
       else s.focusIndex) := by
  unfold jumpBackward
  rcases le_or_lt (max 0 s.minEnabledIndex) (s.focusIndex - step) with h | h
  · rw [if_pos h]
  · rw [if_neg (not_le.mpr h)]

/-- Claim C7: for every `step`, `focusIndex`, `maxEnabledIndex` and
`gridLength`, `jumpForward(step, gridLength)` returns `focusIndex + step`
exactly when `focusIndex + step < min(gridLength, maxEnabledIndex)`, and
otherwise returns `focusIndex` unchanged. -/
theorem jumpForward_spec (s : GridState) (step gridLength : Int) :
    jumpForward s step gridLength =
      (if s.focusIndex + step < min gridLength s.maxEnabledIndex then s.focusIndex + step
       else s.focusIndex) := by
  unfold jumpForward
  rcases lt_or_le (s.focusIndex + step) (min gridLength s.maxEnabledIndex) with h | h
  · rw [if_pos h]
  · rw [if_neg (not_lt.mpr h)]

/-- Claim C9: for every state and every rendered cell count, pressing Space
or Enter fires exactly one `cell-selected` event with `day = focusIndex + 1`,
leaves the whole state (in particular `focusIndex`) unchanged, blurs and
focuses no cell, and throws nothing. -/
theorem activation_fires_day_and_keeps_state (s : GridState) (cellCount : Nat) :
    handleKeyboardNavigation s (some cellCount) Key.space =
      { state := s, effects := [Effect.fired (s.focusIndex + 1)], threw := false } ∧
    handleKeyboardNavigation s (some cellCount) Key.enter =
      { state := s, effects := [Effect.fired (s.focusIndex + 1)], threw := false } := by
  constructor <;> simp [handleKeyboardNavigation, newFocusIndex]

/-- Claim C2, counterexample: the reachable state with
`min = max = 10` (empty enabled range) and `focusIndex = 20` — reached by
`dayCount := 31; min := 20; max := 10; min := 10` — where pressing Left
(`jumpBackward(1)`) moves the cursor to `19`. -/
theorem emptyRange_navigation_moves_counterexample :
    Reachable emptyRangeMovableState ∧
    emptyRangeMovableState.maxEnabledIndex ≤ emptyRangeMovableState.minEnabledIndex ∧
    (handleKeyboardNavigation emptyRangeMovableState
        (some (renderedCellCount emptyRangeMovableState)) Key.left).state.focusIndex ≠
      emptyRangeMovableState.focusIndex :=
  ⟨Reachable.minSet 10
      (Reachable.maxSet 10 (Reachable.minSet 20 (Reachable.daySet 31 Reachable.init))),
    by decide, by decide⟩

/-- Claim C2, amended: with an empty enabled range
(`maxEnabledIndex ≤ minEnabledIndex`), the four arrow-key transitions leave
`focusIndex` unchanged for every cell count *provided the cursor lies between
`minEnabledIndex` and `max(0, minEnabledIndex)`* (as it does right after the
`maxEnabledIndex` setter's reset with a non-negative `minEnabledIndex`);
for other reachable cursor positions the cursor can still move. -/
theorem emptyRange_parked_navigation_noop (s : GridState) (gridLength : Int)
    (hEmpty : s.maxEnabledIndex ≤ s.minEnabledIndex)
    (hLo : s.minEnabledIndex ≤ s.focusIndex)
    (hHi : s.focusIndex ≤ max 0 s.minEnabledIndex) :
    jumpBackward s 1 = s.focusIndex ∧ jumpBackward s 7 = s.focusIndex ∧
    jumpForward s 1 gridLength = s.focusIndex ∧ jumpForward s 7 gridLength = s.focusIndex := by
  refine ⟨?_, ?_, ?_, ?_⟩ <;> simp only [jumpBackward, jumpForward] <;> split <;> omega

/-- Witness for `emptyRange_parked_navigation_noop` at the state
`min = max = 3`, `focusIndex = 3`, with `gridLength = 31`. -/
theorem emptyRange_parked_navigation_noop_witness :
    (emptyRangeParkedState.maxEnabledIndex ≤ emptyRangeParkedState.minEnabledIndex ∧
     emptyRangeParkedState.minEnabledIndex ≤ emptyRangeParkedState.focusIndex ∧
     emptyRangeParkedState.focusIndex ≤ max 0 emptyRangeParkedState.minEnabledIndex) ∧
    (jumpBackward emptyRangeParkedState 1 = emptyRangeParkedState.focusIndex ∧
     jumpBackward emptyRangeParkedState 7 = emptyRangeParkedState.focusIndex ∧
     jumpForward emptyRangeParkedState 1 31 = emptyRangeParkedState.focusIndex ∧
     jumpForward emptyRangeParkedState 7 31 = emptyRangeParkedState.focusIndex) :=
  ⟨by decide,
    emptyRange_parked_navigation_noop emptyRangeParkedState 31 (by decide) (by decide) (by decide)⟩

/-- Claim C3, counterexample: in the reachable state with 5 rendered cells and
`focusIndex = 20` (after `dayCount := 5; minEnabledIndex := 20`), the
focus-forwarding handler accesses the missing cell 20 and throws, and the End
key press throws at `cells[20].blur()`. -/
theorem keyboard_access_missing_cell_counterexample :
    Reachable focusBeyondCellsState ∧
    (forwardFocusToCell focusBeyondCellsState
        (some (renderedCellCount focusBeyondCellsState))).2 = true ∧
    (handleKeyboardNavigation focusBeyondCellsState
        (some (renderedCellCount focusBeyondCellsState)) Key.endKey).threw = true :=
  ⟨Reachable.minSet 20 (Reachable.daySet 5 Reachable.init), by decide, by decide⟩

/-- Claim C3, amended: the handlers never address a missing cell and never
throw *provided* the current `focusIndex` and the computed new focus index are
valid cell indices (within `[0, cellCount)`); when `focusIndex` is outside the
rendered cells, the blur/focus (or forwarded focus) call can throw. -/
theorem keyboard_in_range_never_throws (s : GridState) (cellCount : Nat) (k : Key)
    (h1 : 0 ≤ s.focusIndex ∧ s.focusIndex < (cellCount : Int))
    (h2 : 0 ≤ newFocusIndex s cellCount k ∧ newFocusIndex s cellCount k < (cellCount : Int)) :
    (handleKeyboardNavigation s (some cellCount) k).threw = false ∧
    (forwardFocusToCell s (some cellCount)).2 = false := by
  obtain ⟨h1a, h1b⟩ := h1
  obtain ⟨h2a, h2b⟩ := h2
  constructor
  · simp only [handleKeyboardNavigation]
    split
    · split
      · next hguard => exfalso; rcases hguard with h | h <;> omega
      · split
        · next hguard => exfalso; rcases hguard with h | h <;> omega
        · rfl
    · rfl
  · simp only [forwardFocusToCell]
    split
    · rw [if_pos ⟨h1a, h1b⟩]
    · rfl

/-- Witness for `keyboard_in_range_never_throws`: initial state, one rendered
cell, Left key (whose jump is refused, so no cell access happens). -/
theorem keyboard_in_range_never_throws_witness :
    ((0 ≤ gridInit.focusIndex ∧ gridInit.focusIndex < ((1 : Nat) : Int)) ∧
     (0 ≤ newFocusIndex gridInit 1 Key.left ∧
      newFocusIndex gridInit 1 Key.left < ((1 : Nat) : Int))) ∧
    ((handleKeyboardNavigation gridInit (some 1) Key.left).threw = false ∧
     (forwardFocusToCell gridInit (some 1)).2 = false) :=
  ⟨⟨by decide, by decide⟩,
    keyboard_in_range_never_throws gridInit 1 Key.left (by decide) (by decide)⟩

/-- Claim C5, counterexample: with `dayCount = 0` (the initial state) and the
empty — but defined, hence truthy — cell collection, pressing Enter still
fires `cell-selected` with `day = focusIndex + 1 = 1`. -/
theorem zeroCells_enter_fires_counterexample :
    gridInit.dayCount = 0 ∧
    (handleKeyboardNavigation gridInit (some 0) Key.enter).effects = [Effect.fired 1] :=
  ⟨rfl, by decide⟩

/-- Claim C5, amended: with zero rendered cells every keydown leaves the whole
state (in particular `focusIndex`) unchanged and never blurs or focuses a
cell, but Space/Enter still fires `cell-selected` with `day = focusIndex + 1`
(the `!cells` guard only rejects an *undefined* collection), and a key whose
computed target differs from `focusIndex` throws on the missing cell. -/
theorem zeroCells_keydown_spec (s : GridState) (k : Key) :
    (handleKeyboardNavigation s (some 0) k).state = s ∧
    (handleKeyboardNavigation s (some 0) k).effects =
      (if k = Key.space ∨ k = Key.enter then [Effect.fired (s.focusIndex + 1)] else []) ∧
    (handleKeyboardNavigation s (some 0) k).threw =
      decide (newFocusIndex s 0 k ≠ s.focusIndex) := by
  simp only [handleKeyboardNavigation]
  split
  · next hne =>
    split
    · refine ⟨rfl, rfl, ?_⟩
      simp [hne]
    · next hguard =>
      exfalso
      apply hguard
      by_cases hf : s.focusIndex < 0
      · exact Or.inl hf
      · exact Or.inr (by omega)
  · next hne =>
    simp only [ne_eq, not_not] at hne
    refine ⟨rfl, rfl, ?_⟩
    simp [hne]

/-- Claim C8, counterexample: in the reachable state with 5 rendered cells,
`minEnabledIndex = 0` and `focusIndex = 20` (after `dayCount := 5;
min := 20; min := 0`), pressing Home throws at `cells[20].blur()` and leaves
`focusIndex = 20`, not `max(0, minEnabledIndex) = 0`. -/
theorem home_key_counterexample :
    Reachable homeStrandedState ∧
    (handleKeyboardNavigation homeStrandedState
        (some (renderedCellCount homeStrandedState)) Key.home).state.focusIndex ≠
      max 0 homeStrandedState.minEnabledIndex :=
  ⟨Reachable.minSet 0 (Reachable.minSet 20 (Reachable.daySet 5 Reachable.init)), by decide⟩

/-- Claim C8, amended: Home lands on `max(0, minEnabledIndex)` and End on
`min(cellCount, maxEnabledIndex) - 1` *provided* the prior `focusIndex` is a
valid cell index (or already equals the respective target); otherwise the blur
of the missing old cell throws and `focusIndex` is not updated. -/
theorem home_end_keys_spec (s : GridState) (cellCount : Nat)
    (hHome : s.focusIndex = max 0 s.minEnabledIndex ∨
             (0 ≤ s.focusIndex ∧ s.focusIndex < (cellCount : Int)))
    (hEnd : s.focusIndex = min (cellCount : Int) s.maxEnabledIndex - 1 ∨
            (0 ≤ s.focusIndex ∧ s.focusIndex < (cellCount : Int))) :
    (handleKeyboardNavigation s (some cellCount) Key.home).state.focusIndex =
      max 0 s.minEnabledIndex ∧
    (handleKeyboardNavigation s (some cellCount) Key.endKey).state.focusIndex =
      min (cellCount : Int) s.maxEnabledIndex - 1 := by
  constructor
  · simp only [handleKeyboardNavigation, newFocusIndex]
    split
    · next hne =>
      split
      · next hguard =>
        exfalso
        rcases hHome with h | ⟨ha, hb⟩
        · exact hne h.symm
        · rcases hguard with h | h <;> omega
      · split
        · rfl
        · rfl
    · next hne =>
      simp only [ne_eq, not_not] at hne
      exact hne.symm
  · simp only [handleKeyboardNavigation, newFocusIndex]
    split
    · next hne =>
      split
      · next hguard =>
        exfalso
        rcases hEnd with h | ⟨ha, hb⟩
        · exact hne h.symm
        · rcases hguard with h | h <;> omega
      · split
        · rfl
        · rfl
    · next hne =>
      simp only [ne_eq, not_not] at hne
      exact hne.symm

/-- Witness for `home_end_keys_spec`: initial state with 5 rendered cells —
Home stays at 0, End moves to `min(5, 32) - 1 = 4`. -/
theorem home_end_keys_spec_witness :
    ((gridInit.focusIndex = max 0 gridInit.minEnabledIndex ∨
      (0 ≤ gridInit.focusIndex ∧ gridInit.focusIndex < ((5 : Nat) : Int))) ∧
     (gridInit.focusIndex = min ((5 : Nat) : Int) gridInit.maxEnabledIndex - 1 ∨
      (0 ≤ gridInit.focusIndex ∧ gridInit.focusIndex < ((5 : Nat) : Int)))) ∧
    ((handleKeyboardNavigation gridInit (some 5) Key.home).state.focusIndex =
       max 0 gridInit.minEnabledIndex ∧
     (handleKeyboardNavigation gridInit (some 5) Key.endKey).state.focusIndex =
       min ((5 : Nat) : Int) gridInit.maxEnabledIndex - 1) :=
  ⟨⟨by decide, by decide⟩, home_end_keys_spec gridInit 5 (by decide) (by decide)⟩

/-- Claim C10: whenever `selectedDayIndex ≥ 0`, the rendered cell descriptor
at that index is the selected template, produced without any `handleSelect`
callback — even when the index is inside the enabled range — so clicking the
selected cell fires no `cell-selected` event. -/
theorem selected_cell_has_no_callback (s : GridState) (h : 0 ≤ s.selectedDayIndex) :
    (renderCells s).get? s.selectedDayIndex.toNat = some (some (selectedCellTemplate s)) ∧
    (selectedCellTemplate s).hasHandleSelect = false ∧
    clickCell (selectedCellTemplate s) = [] := by
  refine ⟨?_, rfl, rfl⟩
  unfold renderCells
  rw [if_pos h]
  exact jsArraySet_get _ _ _

/-- Witness for `selected_cell_has_no_callback` at the rendered state
`dayCount = 5`, `selectedDayIndex = 2` (an enabled, in-range index). -/
theorem selected_cell_has_no_callback_witness :
    (0 ≤ selectedRenderState.selectedDayIndex) ∧
    ((renderCells selectedRenderState).get? selectedRenderState.selectedDayIndex.toNat =
       some (some (selectedCellTemplate selectedRenderState)) ∧
     (selectedCellTemplate selectedRenderState).hasHandleSelect = false ∧
     clickCell (selectedCellTemplate selectedRenderState) = []) :=
  ⟨by decide, selected_cell_has_no_callback selectedRenderState (by decide)⟩
